import Mathlib

/-!
Verification of the computational core of the Refractive-Index-Sensor
repository (`src/refractive_index_sensor.py`).

The script's core is the function `calculate_resonance(wavelengths, ri,
structure)`, which dispatches on a structure-name string and reads the
structure-specific slider values.  We embed it as a pure function over the
real numbers: the slider values are collected into a `Params` record (the
script keeps them as module-level variables), and the Python failure modes
(`ZeroDivisionError` when a peak formula divides by zero,
`UnboundLocalError` when the structure string matches no branch so that
`peak_wavelength` is never assigned) become `Except` errors.  The error
type also carries an `invalidParameter` constructor, the error kind named
by the specification's error taxonomy, so that statements about it can be
expressed; the embedded code itself never produces it, mirroring the
script, which contains no input validation.
-/

namespace RefractiveIndexSensor

/-- The slider values of the script, one field per module-level variable.
In the script only the sliders of the selected structure are defined;
here all fields are present and each branch reads exactly the fields the
corresponding branch of the script reads. -/
structure Params where
  grating_height : ℝ
  waveguide_thickness : ℝ
  periodicity : ℝ
  ring_radius : ℝ
  coupling_coefficient : ℝ
  waveguide_width : ℝ
  cavity_length : ℝ
  mirror_reflectivity : ℝ
  num_layers : ℕ
  layer_thickness : ℝ
  ri_contrast : ℝ

/-- Failure modes of `calculate_resonance`.  The first two are the Python
errors the script can actually raise; `invalidParameter` is the error kind
of the specification's taxonomy, included so that claims about it are
statable (the code never produces it). -/
inductive CalcError where
  | zeroDivisionError
  | unboundLocalError
  | invalidParameter
deriving DecidableEq

/-- The grid `wavelengths = np.linspace(300, 700, 401)` (line 10): 401
evenly spaced points from 300 to 700, step (700-300)/400 = 1. -/
noncomputable def wavelengths : List ℝ :=
  (List.range 401).map (fun i : ℕ => 300 + (i : ℝ))

/-- The spectral width
`width_factor = 10 + periodicity * 0.02 if structure == "1D Grating" else 15`
(line 70). -/
noncomputable def width_factor (structureName : String) (p : Params) : ℝ :=
  if structureName = "1D Grating" then 10 + p.periodicity * 0.02 else 15

/-- Pointwise reflectance
`np.exp(-((w - peak_wavelength) ** 2) / (2 * width_factor ** 2))` (line 71). -/
noncomputable def reflectanceAt (peak width w : ℝ) : ℝ :=
  Real.exp (-((w - peak) ^ 2) / (2 * width ^ 2))

/-- The `peak_wavelength` branch of `calculate_resonance` (lines 61-68).
The guards make the Python `ZeroDivisionError` explicit (real division by
a zero denominator raises in Python), and the final branch is the
`UnboundLocalError` raised when the structure string matches no case, so
that `peak_wavelength` is referenced unassigned at line 71. -/
noncomputable def peak_wavelength (structureName : String) (ri : ℝ) (p : Params) :
    Except CalcError ℝ :=
  if structureName = "1D Grating" then
    .ok (p.periodicity * (ri / 1.5))
  else if structureName = "Ring Resonator" then
    if 1 + p.coupling_coefficient = 0 then .error .zeroDivisionError
    else .ok ((2 * Real.pi * p.ring_radius * ri) / (1 + p.coupling_coefficient))
  else if structureName = "Fabry-Pérot Resonator" then
    if 1 - p.mirror_reflectivity = 0 then .error .zeroDivisionError
    else .ok (2 * p.cavity_length * ri / (1 - p.mirror_reflectivity))
  else if structureName = "Bragg Stack" then
    .ok (4 * p.layer_thickness * p.ri_contrast)
  else .error .unboundLocalError

/-- `calculate_resonance` (lines 60-74): peak selection, Gaussian
reflectance over the grid, `transmittance = 1 - reflectance`. -/
noncomputable def calculate_resonance (ws : List ℝ) (ri : ℝ)
    (structureName : String) (p : Params) :
    Except CalcError (List ℝ × List ℝ × ℝ) :=
  match peak_wavelength structureName ri p with
  | .error e => .error e
  | .ok peak =>
      let reflectance := ws.map (fun w => reflectanceAt peak (width_factor structureName p) w)
      let transmittance := reflectance.map (fun r => 1 - r)
      .ok (reflectance, transmittance, peak)

/-- Peak-wavelength projection of a result. -/
noncomputable def peakOf (r : Except CalcError (List ℝ × List ℝ × ℝ)) : Option ℝ :=
  match r with
  | .ok out => some out.2.2
  | .error _ => none

/-- Whether a result is the specification's `InvalidParameter` failure. -/
def isInvalidParameter : Except CalcError (List ℝ × List ℝ × ℝ) → Bool
  | .error .invalidParameter => true
  | .error .zeroDivisionError => false
  | .error .unboundLocalError => false
  | .ok _ => false

/-- Whether a result is any failure at all. -/
def isError : Except CalcError (List ℝ × List ℝ × ℝ) → Bool
  | .error _ => true
  | .ok _ => false

/-- Holds when the result, if it is a success, satisfies `P`. -/
def onOk (r : Except CalcError (List ℝ × List ℝ × ℝ))
    (P : List ℝ × List ℝ × ℝ → Prop) : Prop :=
  match r with
  | .ok out => P out
  | .error _ => True

/-- The default slider values of the script (lines 39-57). -/
noncomputable def defaultParams : Params where
  grating_height := 0.3
  waveguide_thickness := 0.5
  periodicity := 500
  ring_radius := 5.0
  coupling_coefficient := 0.5
  waveguide_width := 0.5
  cavity_length := 5.0
  mirror_reflectivity := 0.95
  num_layers := 5
  layer_thickness := 200
  ri_contrast := 0.5

/-! ### Basic lemmas about the embedding -/

lemma onOk_ok (out : List ℝ × List ℝ × ℝ) (P : List ℝ × List ℝ × ℝ → Prop) :
    onOk (.ok out) P = P out := rfl

lemma onOk_error (e : CalcError) (P : List ℝ × List ℝ × ℝ → Prop) :
    onOk (.error e) P = True := rfl

lemma wavelengths_length : wavelengths.length = 401 := by
  rw [wavelengths, List.length_map, List.length_range]

lemma wavelengths_getElem? {i : ℕ} (hi : i < 401) :
    wavelengths[i]? = some (300 + (i : ℝ)) := by
  rw [wavelengths, List.getElem?_map, List.getElem?_range hi, Option.map_some']

lemma peak_wavelength_grating (ri : ℝ) (p : Params) :
    peak_wavelength "1D Grating" ri p = .ok (p.periodicity * (ri / 1.5)) := by
  unfold peak_wavelength
  rw [if_pos rfl]

lemma peak_wavelength_ring (ri : ℝ) (p : Params)
    (h : 1 + p.coupling_coefficient ≠ 0) :
    peak_wavelength "Ring Resonator" ri p =
      .ok ((2 * Real.pi * p.ring_radius * ri) / (1 + p.coupling_coefficient)) := by
  unfold peak_wavelength
  rw [if_neg (by decide), if_pos rfl, if_neg h]

lemma peak_wavelength_fabryPerot (ri : ℝ) (p : Params)
    (h : 1 - p.mirror_reflectivity ≠ 0) :
    peak_wavelength "Fabry-Pérot Resonator" ri p =
      .ok (2 * p.cavity_length * ri / (1 - p.mirror_reflectivity)) := by
  unfold peak_wavelength
  rw [if_neg (by decide), if_neg (by decide), if_pos rfl, if_neg h]

lemma peak_wavelength_bragg (ri : ℝ) (p : Params) :
    peak_wavelength "Bragg Stack" ri p = .ok (4 * p.layer_thickness * p.ri_contrast) := by
  unfold peak_wavelength
  rw [if_neg (by decide), if_neg (by decide), if_neg (by decide), if_pos rfl]

lemma peak_wavelength_ring_err (ri : ℝ) (p : Params)
    (h : 1 + p.coupling_coefficient = 0) :
    peak_wavelength "Ring Resonator" ri p = .error .zeroDivisionError := by
  unfold peak_wavelength
  rw [if_neg (by decide), if_pos rfl, if_pos h]

lemma peak_wavelength_fabryPerot_err (ri : ℝ) (p : Params)
    (h : 1 - p.mirror_reflectivity = 0) :
    peak_wavelength "Fabry-Pérot Resonator" ri p = .error .zeroDivisionError := by
  unfold peak_wavelength
  rw [if_neg (by decide), if_neg (by decide), if_pos rfl, if_pos h]

lemma width_factor_grating (p : Params) :
    width_factor "1D Grating" p = 10 + p.periodicity * 0.02 := by
  unfold width_factor
  rw [if_pos rfl]

lemma width_factor_other {sn : String} (h : ¬sn = "1D Grating") (p : Params) :
    width_factor sn p = 15 := by
  unfold width_factor
  rw [if_neg h]

lemma calculate_resonance_of_peak {sn : String} {ri : ℝ} {p : Params} {pk : ℝ}
    (h : peak_wavelength sn ri p = .ok pk) (ws : List ℝ) :
    calculate_resonance ws ri sn p =
      .ok (ws.map (fun w => reflectanceAt pk (width_factor sn p) w),
           (ws.map (fun w => reflectanceAt pk (width_factor sn p) w)).map (fun r => 1 - r),
           pk) := by
  unfold calculate_resonance
  rw [h]

lemma calculate_resonance_of_err {sn : String} {ri : ℝ} {p : Params} {e : CalcError}
    (h : peak_wavelength sn ri p = .error e) (ws : List ℝ) :
    calculate_resonance ws ri sn p = .error e := by
  unfold calculate_resonance
  rw [h]

/-! ### C9: the wavelength grid -/

/-- C9: the wavelength grid is an ordered sequence of exactly 401 evenly
spaced values: its length is 401, entry `i` is `300 + i` (so endpoints 300
and 700 are included), and any two consecutive entries differ by exactly 1
with the earlier one strictly smaller.  Being a top-level constant, it is
the same fixed sequence for the whole development. -/
theorem wavelength_grid_spec :
    wavelengths.length = 401 ∧
    wavelengths[0]? = some 300 ∧
    wavelengths[400]? = some 700 ∧
    (∀ i : ℕ, i < 401 → wavelengths[i]? = some (300 + (i : ℝ))) ∧
    (∀ i : ℕ, i + 1 < 401 → ∀ a b : ℝ,
      wavelengths[i]? = some a → wavelengths[i + 1]? = some b → b = a + 1 ∧ a < b) := by
  refine ⟨wavelengths_length, ?_, ?_, fun i hi => wavelengths_getElem? hi, ?_⟩
  · rw [wavelengths_getElem? (by norm_num)]; norm_num
  · rw [wavelengths_getElem? (by norm_num)]; norm_num
  · intro i hi a b ha hb
    rw [wavelengths_getElem? (by omega)] at ha
    rw [wavelengths_getElem? hi] at hb
    have ha' : a = 300 + (i : ℝ) := by exact_mod_cast (Option.some_injective ℝ ha).symm
    have hb' : b = 300 + ((i + 1 : ℕ) : ℝ) := by exact_mod_cast (Option.some_injective ℝ hb).symm
    constructor
    · rw [ha', hb']; push_cast; ring
    · rw [ha', hb']; push_cast; linarith

/-- C9 witness: the universally quantified clauses instantiated at a
concrete interior index. -/
theorem wavelength_grid_spec_witness :
    wavelengths[200]? = some (300 + ((200 : ℕ) : ℝ)) :=
  wavelength_grid_spec.2.2.2.1 200 (by norm_num)

/-! ### C1: the peak-wavelength formulas -/

/-- C1: for every wavelength grid, refractive index and parameter record
with in-range parameters (only the bounds needed to make the denominators
nonzero are used: coupling coefficient at least 0.1 and mirror
reflectivity strictly below 1), the peak wavelength returned by
`calculate_resonance` is the structure-selected formula of the spec. -/
theorem peak_formula_per_structure (ws : List ℝ) (ri : ℝ) (p : Params)
    (hcc : 0.1 ≤ p.coupling_coefficient) (hmr : p.mirror_reflectivity < 1) :
    peakOf (calculate_resonance ws ri "1D Grating" p) =
      some (p.periodicity * (ri / 1.5)) ∧
    peakOf (calculate_resonance ws ri "Ring Resonator" p) =
      some ((2 * Real.pi * p.ring_radius * ri) / (1 + p.coupling_coefficient)) ∧
    peakOf (calculate_resonance ws ri "Fabry-Pérot Resonator" p) =
      some (2 * p.cavity_length * ri / (1 - p.mirror_reflectivity)) ∧
    peakOf (calculate_resonance ws ri "Bragg Stack" p) =
      some (4 * p.layer_thickness * p.ri_contrast) := by
  refine ⟨?_, ?_, ?_, ?_⟩
  · rw [calculate_resonance_of_peak (peak_wavelength_grating ri p) ws, peakOf]
  · rw [calculate_resonance_of_peak (peak_wavelength_ring ri p (by linarith)) ws, peakOf]
  · rw [calculate_resonance_of_peak
      (peak_wavelength_fabryPerot ri p (by intro h; linarith [sub_eq_zero.mp h])) ws, peakOf]
  · rw [calculate_resonance_of_peak (peak_wavelength_bragg ri p) ws, peakOf]

/-- C1 witness: the four formulas at the script's default slider values
and the Blood Plasma refractive index 1.35. -/
theorem peak_formula_per_structure_witness :
    peakOf (calculate_resonance wavelengths 1.35 "1D Grating" defaultParams) =
      some (defaultParams.periodicity * (1.35 / 1.5)) ∧
    peakOf (calculate_resonance wavelengths 1.35 "Ring Resonator" defaultParams) =
      some ((2 * Real.pi * defaultParams.ring_radius * 1.35) /
        (1 + defaultParams.coupling_coefficient)) ∧
    peakOf (calculate_resonance wavelengths 1.35 "Fabry-Pérot Resonator" defaultParams) =
      some (2 * defaultParams.cavity_length * 1.35 / (1 - defaultParams.mirror_reflectivity)) ∧
    peakOf (calculate_resonance wavelengths 1.35 "Bragg Stack" defaultParams) =
      some (4 * defaultParams.layer_thickness * defaultParams.ri_contrast) :=
  peak_formula_per_structure wavelengths 1.35 defaultParams
    (by norm_num [defaultParams]) (by norm_num [defaultParams])

/-! ### C2: transmittance complements reflectance -/

/-- C2: whatever the structure string and the parameters, whenever the
computation succeeds the returned reflectance sequence has the 401 samples
of the grid and pairs with the transmittance sequence so that
`transmittance[i] + reflectance[i] = 1` at every sample. -/
theorem transmittance_reflectance_sum_one (ri : ℝ) (sn : String) (p : Params) :
    onOk (calculate_resonance wavelengths ri sn p) (fun out =>
      out.1.length = 401 ∧ List.Forall₂ (fun r t => t + r = 1) out.1 out.2.1) := by
  unfold calculate_resonance
  cases h : peak_wavelength sn ri p with
  | error e => exact trivial
  | ok pk =>
      refine ⟨?_, ?_⟩
      · rw [List.length_map, wavelengths_length]
      · rw [List.forall₂_map_right_iff, List.forall₂_same]
        intro x _
        ring

/-! ### C3: the Gaussian reflectance formula -/

/-- C3: whenever the computation succeeds, the reflectance at grid sample
`i` (wavelength `w = 300 + i`) is `exp (-(w - peak)^2 / (2 * width^2))`,
where `width` is `width_factor`: `10 + periodicity * 0.02` for the
grating and 15 otherwise. -/
theorem reflectance_gaussian_formula (ri : ℝ) (sn : String) (p : Params) :
    onOk (calculate_resonance wavelengths ri sn p) (fun out =>
      ∀ i : ℕ, i < 401 →
        out.1[i]? = some (Real.exp
          (-((300 + (i : ℝ)) - out.2.2) ^ 2 / (2 * width_factor sn p ^ 2)))) := by
  unfold calculate_resonance
  cases h : peak_wavelength sn ri p with
  | error e => exact trivial
  | ok pk =>
      intro i hi
      rw [List.getElem?_map, wavelengths_getElem? hi, Option.map_some']
      rw [reflectanceAt]

/-- C3 witness: the formula read off at sample 150 (wavelength 450) of a
default-parameter grating run. -/
theorem reflectance_gaussian_formula_witness :
    onOk (calculate_resonance wavelengths 1.35 "1D Grating" defaultParams) (fun out =>
      out.1[150]? = some (Real.exp
        (-((300 + ((150 : ℕ) : ℝ)) - out.2.2) ^ 2 /
          (2 * width_factor "1D Grating" defaultParams ^ 2)))) := by
  have h := reflectance_gaussian_formula 1.35 "1D Grating" defaultParams
  cases hres : calculate_resonance wavelengths 1.35 "1D Grating" defaultParams with
  | error e => rw [onOk_error]; exact trivial
  | ok out =>
      rw [hres, onOk_ok] at h
      rw [onOk_ok]
      exact h 150 (by norm_num)

/-! ### C4: Fabry-Pérot with mirror reflectivity 1 -/

/-- The default parameters with the mirror-reflectivity slider pushed to
its maximum 1.0. -/
noncomputable def fullMirrorParams : Params :=
  { defaultParams with mirror_reflectivity := 1.0 }

/-- C4 counterexample: at mirror reflectivity 1.0 the computation fails
with `ZeroDivisionError`, raised when the peak formula divides by zero —
not with the specification's `InvalidParameter`, and not before the
computation: the script contains no validation. -/
theorem fabryPerot_full_mirror_counterexample :
    calculate_resonance wavelengths 1.35 "Fabry-Pérot Resonator" fullMirrorParams =
      .error .zeroDivisionError ∧
    isInvalidParameter
      (calculate_resonance wavelengths 1.35 "Fabry-Pérot Resonator" fullMirrorParams) = false := by
  have hpk : peak_wavelength "Fabry-Pérot Resonator" 1.35 fullMirrorParams =
      .error .zeroDivisionError := by
    unfold peak_wavelength
    rw [if_neg (by decide), if_neg (by decide), if_pos rfl,
      if_pos (by norm_num [fullMirrorParams, defaultParams])]
  rw [calculate_resonance_of_err hpk wavelengths]
  exact ⟨rfl, rfl⟩

/-- C4 amended: for every grid, refractive index and parameter record
with mirror reflectivity exactly 1, the Fabry-Pérot computation fails
(producing no output), but with `ZeroDivisionError` from the peak formula
rather than a pre-computation `InvalidParameter` rejection. -/
theorem fabryPerot_full_mirror_zero_division (ws : List ℝ) (ri : ℝ) (p : Params)
    (h : p.mirror_reflectivity = 1) :
    calculate_resonance ws ri "Fabry-Pérot Resonator" p = .error .zeroDivisionError := by
  have hpk : peak_wavelength "Fabry-Pérot Resonator" ri p = .error .zeroDivisionError := by
    unfold peak_wavelength
    rw [if_neg (by decide), if_neg (by decide), if_pos rfl, if_pos (by rw [h]; ring)]
  exact calculate_resonance_of_err hpk ws

/-- C4 amended witness: the amended statement at the concrete full-mirror
parameter record. -/
theorem fabryPerot_full_mirror_zero_division_witness :
    calculate_resonance wavelengths 1.46 "Fabry-Pérot Resonator" fullMirrorParams =
      .error .zeroDivisionError :=
  fabryPerot_full_mirror_zero_division wavelengths 1.46 fullMirrorParams
    (by norm_num [fullMirrorParams, defaultParams])

/-! ### C5: the InvalidParameter contract -/

/-- C5 counterexample: a negative refractive index violates the stated
positivity constraint, yet the computation does not fail at all (so in
particular it does not fail with `InvalidParameter`): the script has no
validation and happily returns a (negative-peak) result. -/
theorem no_validation_counterexample :
    isError (calculate_resonance wavelengths (-1) "1D Grating" defaultParams) = false ∧
    peakOf (calculate_resonance wavelengths (-1) "1D Grating" defaultParams) =
      some (defaultParams.periodicity * (-1 / 1.5)) := by
  rw [calculate_resonance_of_peak (peak_wavelength_grating (-1) defaultParams) wavelengths]
  exact ⟨rfl, rfl⟩

/-- C5 amended: the computation never fails with `InvalidParameter`, for
any input whatsoever — constraint-violating inputs are either computed
normally (e.g. non-positive refractive index, zero periodicity or layer
thickness), or fail with a different error (`ZeroDivisionError` for
mirror reflectivity 1, `UnboundLocalError` for an unrecognized structure
variant). -/
theorem never_invalid_parameter (ws : List ℝ) (ri : ℝ) (sn : String) (p : Params) :
    isInvalidParameter (calculate_resonance ws ri sn p) = false := by
  unfold calculate_resonance peak_wavelength
  split_ifs <;> rfl

/-! ### C6: the BraggStack peak ignores the refractive index -/

/-- C6: the BraggStack peak wavelength does not depend on the
refractive-index argument — any two refractive indices give the same
peak, namely `4 * layer_thickness * ri_contrast` — and at the script's
default layer thickness 200 and contrast 0.5 the peak is 400 for every
refractive index. -/
theorem bragg_peak_ignores_refractive_index :
    (∀ (ws : List ℝ) (ri₁ ri₂ : ℝ) (p : Params),
      peakOf (calculate_resonance ws ri₁ "Bragg Stack" p) =
        peakOf (calculate_resonance ws ri₂ "Bragg Stack" p)) ∧
    (∀ ri : ℝ,
      peakOf (calculate_resonance wavelengths ri "Bragg Stack" defaultParams) = some 400) := by
  constructor
  · intro ws ri₁ ri₂ p
    rw [calculate_resonance_of_peak (peak_wavelength_bragg ri₁ p) ws,
      calculate_resonance_of_peak (peak_wavelength_bragg ri₂ p) ws]
  · intro ri
    rw [calculate_resonance_of_peak (peak_wavelength_bragg ri defaultParams) wavelengths, peakOf]
    norm_num [defaultParams]

/-! ### C8: determinism -/

/-- C8: the computation is deterministic — two calls with equal grids,
equal refractive indices, equal structure names and equal parameter
records return equal results (the embedding is a pure function, so there
are no side effects or randomness to model). -/
theorem calculate_resonance_deterministic (ws₁ ws₂ : List ℝ) (ri₁ ri₂ : ℝ)
    (sn₁ sn₂ : String) (p₁ p₂ : Params)
    (hws : ws₁ = ws₂) (hri : ri₁ = ri₂) (hsn : sn₁ = sn₂) (hp : p₁ = p₂) :
    calculate_resonance ws₁ ri₁ sn₁ p₁ = calculate_resonance ws₂ ri₂ sn₂ p₂ := by
  rw [hws, hri, hsn, hp]

/-- C8 witness: two textually identical calls agree. -/
theorem calculate_resonance_deterministic_witness :
    calculate_resonance wavelengths 1.35 "1D Grating" defaultParams =
      calculate_resonance wavelengths 1.35 "1D Grating" defaultParams :=
  calculate_resonance_deterministic wavelengths wavelengths 1.35 1.35
    "1D Grating" "1D Grating" defaultParams defaultParams rfl rfl rfl rfl

/-! ### C10: independence from the unused sliders -/

/-- C10: each structure's result depends only on the sliders its formulas
read — two parameter records agreeing on those sliders give identical
results, whatever the unused sliders (grating height and waveguide
thickness for the grating; waveguide width for the ring; waveguide
thickness for the Fabry-Pérot; layer count for the Bragg stack) hold. -/
theorem result_ignores_unused_params :
    (∀ (ws : List ℝ) (ri : ℝ) (p q : Params), p.periodicity = q.periodicity →
      calculate_resonance ws ri "1D Grating" p = calculate_resonance ws ri "1D Grating" q) ∧
    (∀ (ws : List ℝ) (ri : ℝ) (p q : Params), p.ring_radius = q.ring_radius →
      p.coupling_coefficient = q.coupling_coefficient →
      calculate_resonance ws ri "Ring Resonator" p =
        calculate_resonance ws ri "Ring Resonator" q) ∧
    (∀ (ws : List ℝ) (ri : ℝ) (p q : Params), p.cavity_length = q.cavity_length →
      p.mirror_reflectivity = q.mirror_reflectivity →
      calculate_resonance ws ri "Fabry-Pérot Resonator" p =
        calculate_resonance ws ri "Fabry-Pérot Resonator" q) ∧
    (∀ (ws : List ℝ) (ri : ℝ) (p q : Params), p.layer_thickness = q.layer_thickness →
      p.ri_contrast = q.ri_contrast →
      calculate_resonance ws ri "Bragg Stack" p = calculate_resonance ws ri "Bragg Stack" q) := by
  refine ⟨?_, ?_, ?_, ?_⟩
  · intro ws ri p q h
    rw [calculate_resonance_of_peak (peak_wavelength_grating ri p) ws,
      calculate_resonance_of_peak (peak_wavelength_grating ri q) ws,
      width_factor_grating, width_factor_grating, h]
  · intro ws ri p q h₁ h₂
    by_cases hc : 1 + p.coupling_coefficient = 0
    · rw [calculate_resonance_of_err (peak_wavelength_ring_err ri p hc) ws,
        calculate_resonance_of_err (peak_wavelength_ring_err ri q (by rw [← h₂]; exact hc)) ws]
    · rw [calculate_resonance_of_peak (peak_wavelength_ring ri p hc) ws,
        calculate_resonance_of_peak (peak_wavelength_ring ri q (by rw [← h₂]; exact hc)) ws,
        width_factor_other (by decide), width_factor_other (by decide), h₁, h₂]
  · intro ws ri p q h₁ h₂
    by_cases hc : 1 - p.mirror_reflectivity = 0
    · rw [calculate_resonance_of_err (peak_wavelength_fabryPerot_err ri p hc) ws,
        calculate_resonance_of_err
          (peak_wavelength_fabryPerot_err ri q (by rw [← h₂]; exact hc)) ws]
    · rw [calculate_resonance_of_peak (peak_wavelength_fabryPerot ri p hc) ws,
        calculate_resonance_of_peak
          (peak_wavelength_fabryPerot ri q (by rw [← h₂]; exact hc)) ws,
        width_factor_other (by decide), width_factor_other (by decide), h₁, h₂]
  · intro ws ri p q h₁ h₂
    rw [calculate_resonance_of_peak (peak_wavelength_bragg ri p) ws,
      calculate_resonance_of_peak (peak_wavelength_bragg ri q) ws,
      width_factor_other (by decide), width_factor_other (by decide), h₁, h₂]

/-- Default parameters with the sliders unused by the grating moved. -/
noncomputable def movedUnusedParams : Params :=
  { defaultParams with grating_height := 1.7, waveguide_thickness := 1.9 }

/-- C10 witness: a default-parameter grating run agrees with a run whose
grating height and waveguide thickness were changed. -/
theorem result_ignores_unused_params_witness :
    calculate_resonance wavelengths 1.35 "1D Grating" defaultParams =
      calculate_resonance wavelengths 1.35 "1D Grating" movedUnusedParams :=
  result_ignores_unused_params.1 wavelengths 1.35 defaultParams movedUnusedParams rfl

/-! ### C7: shape of the reflectance curve -/

lemma reflectanceAt_mono {pk width : ℝ} (hw : 0 < width) {x y : ℝ}
    (h : |x - pk| ≤ |y - pk|) :
    reflectanceAt pk width y ≤ reflectanceAt pk width x := by
  unfold reflectanceAt
  apply Real.exp_le_exp.mpr
  have h2 : (x - pk) ^ 2 ≤ (y - pk) ^ 2 := by
    rw [← sq_abs (x - pk), ← sq_abs (y - pk)]
    exact pow_le_pow_left (abs_nonneg _) h 2
  have hden : (0 : ℝ) < 2 * width ^ 2 := by positivity
  exact (div_le_div_right hden).mpr (neg_le_neg h2)

lemma reflectanceAt_close {pk width w : ℝ} (hw : 10 ≤ width) (hd : |w - pk| ≤ 1 / 2) :
    Real.exp (-(1 / 800 : ℝ)) ≤ reflectanceAt pk width w := by
  unfold reflectanceAt
  apply Real.exp_le_exp.mpr
  have hsq : (w - pk) ^ 2 ≤ 1 / 4 := by
    rw [← sq_abs]
    calc |w - pk| ^ 2 ≤ (1 / 2 : ℝ) ^ 2 := pow_le_pow_left (abs_nonneg _) hd 2
    _ = 1 / 4 := by norm_num
  have hden : (200 : ℝ) ≤ 2 * width ^ 2 := by nlinarith
  have hdiv : (w - pk) ^ 2 / (2 * width ^ 2) ≤ (1 / 4 : ℝ) / 200 :=
    div_le_div (by norm_num) hsq (by norm_num) hden
  have h14 : ((1 : ℝ) / 4) / 200 = 1 / 800 := by norm_num
  rw [neg_div]
  linarith

lemma exists_nearest_index {pk : ℝ} (h1 : 300 ≤ pk) (h2 : pk ≤ 700) :
    ∃ i : ℕ, i < 401 ∧ |(300 + (i : ℝ)) - pk| ≤ 1 / 2 ∧
      ∀ j : ℕ, |(300 + (i : ℝ)) - pk| ≤ |(300 + (j : ℝ)) - pk| := by
  have hn0 : 0 ≤ ⌊pk - 300 + 1 / 2⌋ := Int.le_floor.mpr (by push_cast; linarith)
  have hnle : ((⌊pk - 300 + 1 / 2⌋ : ℤ) : ℝ) ≤ pk - 300 + 1 / 2 := Int.floor_le _
  have hngt : pk - 300 + 1 / 2 < ⌊pk - 300 + 1 / 2⌋ + 1 := Int.lt_floor_add_one _
  have hn401 : ⌊pk - 300 + 1 / 2⌋ < 401 := by
    exact_mod_cast (show ((⌊pk - 300 + 1 / 2⌋ : ℤ) : ℝ) < 401 by linarith)
  have hcast : ((⌊pk - 300 + 1 / 2⌋.toNat : ℕ) : ℝ) = ((⌊pk - 300 + 1 / 2⌋ : ℤ) : ℝ) := by
    exact_mod_cast Int.toNat_of_nonneg hn0
  refine ⟨⌊pk - 300 + 1 / 2⌋.toNat, by omega, ?_, ?_⟩
  · rw [hcast, abs_le]
    constructor <;> linarith
  · intro j
    by_cases hj : j = ⌊pk - 300 + 1 / 2⌋.toNat
    · rw [hj]
    · have hdist : |(300 + ((⌊pk - 300 + 1 / 2⌋.toNat : ℕ) : ℝ)) - pk| ≤ 1 / 2 := by
        rw [hcast, abs_le]
        constructor <;> linarith
      have hsub : (300 + (j : ℝ)) - (300 + ((⌊pk - 300 + 1 / 2⌋.toNat : ℕ) : ℝ)) =
          (((j : ℤ) - (⌊pk - 300 + 1 / 2⌋.toNat : ℤ) : ℤ) : ℝ) := by
        push_cast
        ring
      have hone : (1 : ℝ) ≤ |(300 + (j : ℝ)) - (300 + ((⌊pk - 300 + 1 / 2⌋.toNat : ℕ) : ℝ))| := by
        rw [hsub]
        have hz : ((j : ℤ) - (⌊pk - 300 + 1 / 2⌋.toNat : ℤ)) ≠ 0 := by
          intro hzero
          exact hj (by omega)
        calc (1 : ℝ) = ((1 : ℤ) : ℝ) := by norm_num
        _ ≤ ((|(j : ℤ) - (⌊pk - 300 + 1 / 2⌋.toNat : ℤ)| : ℤ) : ℝ) := by
            exact_mod_cast Int.one_le_abs hz
        _ = |(((j : ℤ) - (⌊pk - 300 + 1 / 2⌋.toNat : ℤ) : ℤ) : ℝ)| := by
            rw [Int.cast_abs]
      have htri := abs_sub_le (300 + (j : ℝ))
        (300 + ((⌊pk - 300 + 1 / 2⌋.toNat : ℕ) : ℝ)) pk
      have hcomm : |(300 + ((⌊pk - 300 + 1 / 2⌋.toNat : ℕ) : ℝ)) - pk| =
          |pk - (300 + ((⌊pk - 300 + 1 / 2⌋.toNat : ℕ) : ℝ))| := abs_sub_comm _ _
      have htri2 : |(300 + (j : ℝ)) -
          (300 + ((⌊pk - 300 + 1 / 2⌋.toNat : ℕ) : ℝ))| -
          |(300 + ((⌊pk - 300 + 1 / 2⌋.toNat : ℕ) : ℝ)) - pk| ≤ |(300 + (j : ℝ)) - pk| := by
        rw [hcomm] at *
        linarith [abs_sub_le (300 + (j : ℝ)) pk
          (300 + ((⌊pk - 300 + 1 / 2⌋.toNat : ℕ) : ℝ))]
      linarith

/-- C7: whenever the computation over the standard grid succeeds with a
spectral width of at least 10 (as `width_factor` always is for in-range
parameters), (1) the reflectance sequence samples the Gaussian at the
grid wavelengths; (2) if the peak lies within [300, 700] a grid sample
nearest the peak (within half a grid step of it) attains the maximum of
the reflectance over the grid, with value at least `exp (-1/800)` ≈
0.99875 (the "1.0 within tolerance" of the spec); (3) if the peak lies at
or below 300 the curve is monotonically decreasing across the grid, and
(4) if it lies at or above 700 the curve is monotonically increasing —
and in all cases the call has produced a valid result, not a failure. -/
theorem reflectance_peak_location (ri : ℝ) (sn : String) (p : Params)
    (refl trans : List ℝ) (pk : ℝ)
    (hok : calculate_resonance wavelengths ri sn p = .ok (refl, trans, pk))
    (hw : 10 ≤ width_factor sn p) :
    (∀ i : ℕ, i < 401 →
      refl[i]? = some (reflectanceAt pk (width_factor sn p) (300 + (i : ℝ)))) ∧
    (300 ≤ pk → pk ≤ 700 →
      ∃ i : ℕ, i < 401 ∧ |(300 + (i : ℝ)) - pk| ≤ 1 / 2 ∧
        (∀ j : ℕ, j < 401 →
          reflectanceAt pk (width_factor sn p) (300 + (j : ℝ)) ≤
            reflectanceAt pk (width_factor sn p) (300 + (i : ℝ))) ∧
        Real.exp (-(1 / 800 : ℝ)) ≤ reflectanceAt pk (width_factor sn p) (300 + (i : ℝ))) ∧
    (pk ≤ 300 → ∀ i j : ℕ, i ≤ j →
      reflectanceAt pk (width_factor sn p) (300 + (j : ℝ)) ≤
        reflectanceAt pk (width_factor sn p) (300 + (i : ℝ))) ∧
    (700 ≤ pk → ∀ i j : ℕ, i ≤ j → j ≤ 400 →
      reflectanceAt pk (width_factor sn p) (300 + (i : ℝ)) ≤
        reflectanceAt pk (width_factor sn p) (300 + (j : ℝ))) := by
  have hw0 : (0 : ℝ) < width_factor sn p := by linarith
  have hrefl : refl = wavelengths.map (fun w => reflectanceAt pk (width_factor sn p) w) := by
    unfold calculate_resonance at hok
    cases hpk : peak_wavelength sn ri p with
    | error e => rw [hpk] at hok; exact absurd hok (by simp)
    | ok pk' =>
        rw [hpk] at hok
        simp only [Except.ok.injEq, Prod.mk.injEq] at hok
        obtain ⟨h1, _, h3⟩ := hok
        rw [← h1, h3]
  refine ⟨?_, ?_, ?_, ?_⟩
  · intro i hi
    rw [hrefl, List.getElem?_map, wavelengths_getElem? hi, Option.map_some']
  · intro hlo hhi
    obtain ⟨i, hi401, hdist, hmin⟩ := exists_nearest_index hlo hhi
    exact ⟨i, hi401, hdist,
      fun j _ => reflectanceAt_mono hw0 (hmin j),
      reflectanceAt_close hw hdist⟩
  · intro hpk i j hij
    apply reflectanceAt_mono hw0
    have hij' : (i : ℝ) ≤ (j : ℝ) := by exact_mod_cast hij
    rw [abs_of_nonneg (by linarith), abs_of_nonneg (by linarith)]
    linarith
  · intro hpk i j hij hj400
    apply reflectanceAt_mono hw0
    have hij' : (i : ℝ) ≤ (j : ℝ) := by exact_mod_cast hij
    have hj' : (j : ℝ) ≤ 400 := by exact_mod_cast hj400
    rw [abs_of_nonpos (by linarith), abs_of_nonpos (by linarith)]
    linarith

/-- C7 witness: the ring resonator at its default sliders and refractive
index 1.46 has its peak `(2π·5·1.46)/1.5 ≈ 30.6` below the grid, and the
reflectance is indeed decreasing across the first grid step. -/
theorem reflectance_peak_location_witness :
    reflectanceAt
        ((2 * Real.pi * defaultParams.ring_radius * 1.46) /
          (1 + defaultParams.coupling_coefficient))
        (width_factor "Ring Resonator" defaultParams) (300 + ((1 : ℕ) : ℝ)) ≤
      reflectanceAt
        ((2 * Real.pi * defaultParams.ring_radius * 1.46) /
          (1 + defaultParams.coupling_coefficient))
        (width_factor "Ring Resonator" defaultParams) (300 + ((0 : ℕ) : ℝ)) :=
  (reflectance_peak_location 1.46 "Ring Resonator" defaultParams _ _ _
    (calculate_resonance_of_peak
      (peak_wavelength_ring 1.46 defaultParams (by norm_num [defaultParams])) wavelengths)
    (by rw [width_factor_other (by decide)]; norm_num)).2.2.1
    (by
      rw [div_le_iff (by norm_num [defaultParams])]
      norm_num [defaultParams]
      nlinarith [Real.pi_le_four])
    0 1 (by norm_num)

end RefractiveIndexSensor
